import Mathlib

/-!
Shallow embedding of drivers/mtd/spi/mr25hxx.c (SPI MTD driver for
everspin mr25hxx MRAM devices) and proofs about its read/write/erase
protocol logic, its MTD registration logic, and its global device-data
pointer.

Bus transfers are modelled as a trace of `SpiPhase` records, one per
`dm_spi_xfer` call, and the result of the n-th transfer of an operation
is supplied by an environment function `env : Nat → Int` (0 = success,
as in the C driver model API).
-/

/-- Geometry record attached to each device variant (struct mr25hxx_data). -/
structure Mr25hxxData where
  size : Nat
  addr_bytes : Nat
  deriving DecidableEq, Repr

/-- Chip-select framing flag SPI_XFER_BEGIN (value from u-boot spi.h, outside src). -/
def SPI_XFER_BEGIN : Nat := 1

/-- Chip-select framing flag SPI_XFER_END (value from u-boot spi.h, outside src). -/
def SPI_XFER_END : Nat := 2

/-- One `dm_spi_xfer` call: bit length, transmitted bytes (if any, exactly
the `bitlen / 8` bytes clocked out of the supplied buffer), whether a
receive buffer was supplied, and the chip-select framing flags. -/
structure SpiPhase where
  bitlen : Nat
  dout : Option (List Nat)
  hasDin : Bool
  flags : Nat
  deriving DecidableEq, Repr

/-- Outcome of one read/write operation: the returned error code, the
trace of bus phases issued, and the value written through `retlen`
(none when the operation did not write `*retlen`). -/
structure XferOutcome where
  ret : Int
  phases : List SpiPhase
  retlen : Option Nat
  deriving DecidableEq, Repr

/-- Address-setup step shared by spi_mram_read and spi_mram_write
(lines 91-105 / 138-152): the 3-element `addr` array exactly as the C
code fills it (for 2-byte width the third element is written 0 but not
clocked) together with `addr_bits`; `none` when `addr_bytes` is
neither 3 nor 2 and the operation returns -1. -/
def spi_mram_addr (addr_bytes offset : Nat) : Option (List Nat × Nat) :=
  if addr_bytes = 3 then
    some ([(offset >>> 16) % 256, (offset >>> 8) % 256, offset % 256], 3 * 8)
  else if addr_bytes = 2 then
    some ([(offset >>> 8) % 256, offset % 256, 0], 2 * 8)
  else
    none

/-- spi_mram_read: three bus phases (READ opcode 0x03 with BEGIN, address
bytes with no framing change, data-in with END).  Each `dm_spi_xfer`
result overwrites the single local `result`, so only `env 2` (the data
phase) decides the return value and whether `*retlen` is written. -/
def spi_mram_read (dd : Mr25hxxData) (offset len : Nat) (env : Nat → Int) : XferOutcome :=
  match spi_mram_addr dd.addr_bytes offset with
  | none => { ret := -1, phases := [], retlen := none }
  | some (addr, addr_bits) =>
    let phase1 : SpiPhase := { bitlen := 8, dout := some [0x03], hasDin := false, flags := SPI_XFER_BEGIN }
    let phase2 : SpiPhase := { bitlen := addr_bits, dout := some (addr.take (addr_bits / 8)), hasDin := false, flags := 0 }
    let phase3 : SpiPhase := { bitlen := 8 * len, dout := none, hasDin := true, flags := SPI_XFER_END }
    let result := env 0
    let result := env 1
    let result := env 2
    { ret := result,
      phases := [phase1, phase2, phase3],
      retlen := if result = 0 then some len else none }

/-- spi_mram_write: four bus phases (WRITE_ENABLE 0x06 with BEGIN|END,
WRITE opcode 0x02 with BEGIN, address bytes, data-out with END).  As in
read, each transfer result overwrites `result`, so only `env 3` (the
data phase) decides the return value and `*retlen`. -/
def spi_mram_write (dd : Mr25hxxData) (offset len : Nat) (buf : List Nat) (env : Nat → Int) : XferOutcome :=
  match spi_mram_addr dd.addr_bytes offset with
  | none => { ret := -1, phases := [], retlen := none }
  | some (addr, addr_bits) =>
    let phaseA : SpiPhase := { bitlen := 8, dout := some [0x06], hasDin := false, flags := SPI_XFER_BEGIN ||| SPI_XFER_END }
    let phaseB : SpiPhase := { bitlen := 8, dout := some [0x02], hasDin := false, flags := SPI_XFER_BEGIN }
    let phaseC : SpiPhase := { bitlen := addr_bits, dout := some (addr.take (addr_bits / 8)), hasDin := false, flags := 0 }
    let phaseD : SpiPhase := { bitlen := 8 * len, dout := some (buf.take len), hasDin := false, flags := SPI_XFER_END }
    let result := env 0
    let result := env 1
    let result := env 2
    let result := env 3
    { ret := result,
      phases := [phaseA, phaseB, phaseC, phaseD],
      retlen := if result = 0 then some len else none }

/-- Size of a `uchar*` pointer on the LP64 targets this driver builds for:
`sizeof(buffer)` in spi_mram_erase is the size of the pointer variable,
not of the allocation. -/
def sizeof_uchar_ptr : Nat := 8

/-- Buffer prepared by spi_mram_erase (lines 181-182): `kmalloc(len)`
returns uninitialized memory (modelled by `uninit`, giving byte i of the
fresh allocation), and `memset(buffer, 0, sizeof(buffer))` zeroes only
the first `sizeof(uchar*)` bytes, leaving the rest uninitialized. -/
def spi_mram_erase_buffer (len : Nat) (uninit : Nat → Nat) : List Nat :=
  (List.range len).map (fun i => if i < sizeof_uchar_ptr then 0 else uninit i)

/-- spi_mram_erase: emulates erase by writing the (intended zero-filled)
buffer of `instr->len` bytes via spi_mram_write; returns the write's
outcome (its `ret` is what erase returns). -/
def spi_mram_erase (dd : Mr25hxxData) (addr len : Nat) (uninit : Nat → Nat) (env : Nat → Int) : XferOutcome :=
  spi_mram_write dd addr len (spi_mram_erase_buffer len uninit) env

/-- MTD device type MTD_RAM (value from linux/mtd/mtd-abi.h, outside src). -/
def MTD_RAM : Nat := 1

/-- RAM-like capability flags MTD_CAP_RAM = MTD_WRITEABLE | MTD_BIT_WRITEABLE |
MTD_NO_ERASE (value from linux/mtd/mtd-abi.h, outside src). -/
def MTD_CAP_RAM : Nat := 0x1c00

/-- The fields of struct mtd_info that spi_mram_mtd_register populates. -/
structure MtdInfo where
  name : String
  mtype : Nat
  flags : Nat
  size : Nat
  writesize : Nat
  writebufsize : Nat
  numeraseregions : Nat
  erasesize : Nat
  deriving DecidableEq, Repr

/-- Registration-related driver state: the `mram_mtd_registered` global flag
and the number of MTD registry entries currently installed for this device. -/
structure RegState where
  registered : Bool
  entries : Nat
  deriving DecidableEq, Repr

/-- Registry calls issued during registration. -/
inductive RegEvent
  | del
  | add
  deriving DecidableEq, Repr

/-- Outcome of spi_mram_mtd_register: return code, final state, the mtd_info
as left by the call, the trace of registry calls paired with the entry count
right after each call, and a snapshot of the state at the moment
`add_mtd_device` is invoked (`none` when the call returns before it). -/
structure RegOutcome where
  ret : Int
  state : RegState
  mtd : MtdInfo
  trace : List (RegEvent × Nat)
  preAdd : Option RegState
  deriving Repr

/-- Tail of spi_mram_mtd_register after the stale-entry block (lines 217-238):
clear the flag, populate the mtd_info fields, call `add_mtd_device`
(succeeding iff `addResult = 0`), and set the flag on success. -/
def spi_mram_install (st : RegState) (dd : Mr25hxxData) (mtd : MtdInfo)
    (addResult : Int) (tr : List (RegEvent × Nat)) : RegOutcome :=
  let st1 : RegState := { st with registered := false }
  let mtd1 : MtdInfo :=
    { mtd with name := "mram0", mtype := MTD_RAM, flags := MTD_CAP_RAM,
               size := dd.size, writesize := 1, writebufsize := 265,
               numeraseregions := 0, erasesize := 1 }
  let entries2 := if addResult = 0 then st1.entries + 1 else st1.entries
  { ret := addResult,
    state := { registered := if addResult = 0 then true else false, entries := entries2 },
    mtd := mtd1,
    trace := tr ++ [(RegEvent.add, entries2)],
    preAdd := some st1 }

/-- spi_mram_mtd_register (lines 205-239): if already registered, first
`del_mtd_device` the stale entry (succeeding iff `delResult = 0`; on failure
return its error with nothing else done), then install the new entry. -/
def spi_mram_mtd_register (st : RegState) (dd : Mr25hxxData) (mtd : MtdInfo)
    (delResult addResult : Int) : RegOutcome :=
  if st.registered then
    if delResult = 0 then
      spi_mram_install { registered := false, entries := st.entries - 1 } dd mtd addResult
        [(RegEvent.del, st.entries - 1)]
    else
      { ret := delResult, state := st, mtd := mtd,
        trace := [(RegEvent.del, st.entries)], preAdd := none }
  else
    spi_mram_install st dd mtd addResult []

/-- spi_mram_mtd_unregister (lines 246-264): nothing if not registered;
otherwise `del_mtd_device`; on success clear the flag, on failure leave the
flag set (the entry is left defunct, mtd->priv nulled — not modelled). -/
def spi_mram_mtd_unregister (st : RegState) (delResult : Int) : RegState :=
  if st.registered then
    if delResult = 0 then { registered := false, entries := st.entries - 1 }
    else st
  else st

/-- Variant table entries (static struct mr25hxx_data mr25h40_data, line 268). -/
def mr25h40_data : Mr25hxxData := { size := 0x80000, addr_bytes := 3 }

/-- Variant table entry for mr25h10 (line 269). -/
def mr25h10_data : Mr25hxxData := { size := 0x20000, addr_bytes := 3 }

/-- Variant table entry for mr25h256 (line 270). -/
def mr25h256_data : Mr25hxxData := { size := 0x8000, addr_bytes := 2 }

/-- Variant table entry for mr25h128 (line 271). -/
def mr25h128_data : Mr25hxxData := { size := 0x4000, addr_bytes := 2 }

/-- Device-tree match table spi_mram_ids (lines 273-279): compatible string
to driver data. -/
def spi_mram_ids : List (String × Mr25hxxData) :=
  [("mr25h40", mr25h40_data), ("mr25h10", mr25h10_data),
   ("mr25h256", mr25h256_data), ("mr25h128", mr25h128_data)]

/-- A udevice as far as this driver uses it: the driver data bound to the
device from the match table (`dev_get_driver_data`). -/
structure UDevice where
  driver_data : Mr25hxxData
  deriving DecidableEq, Repr

/-- Process-wide driver state: the single global `dev_data` pointer (line 18)
shared by all instances, plus the registration state. -/
structure DriverState where
  dev_data : Option Mr25hxxData
  reg : RegState
  deriving Repr

/-- spi_mram_probe (lines 29-58): claim the bus (failing iff
`claimResult ≠ 0`, in which case nothing else happens), set the GLOBAL
`dev_data` pointer from the device being probed, then register with MTD. -/
def spi_mram_probe (st : DriverState) (dev : UDevice) (mtd : MtdInfo)
    (claimResult delResult addResult : Int) : Int × DriverState :=
  if claimResult ≠ 0 then (claimResult, st)
  else
    let st1 : DriverState := { st with dev_data := some dev.driver_data }
    let r := spi_mram_mtd_register st1.reg dev.driver_data mtd delResult addResult
    (r.ret, { st1 with reg := r.state })

/-- spi_mram_remove (lines 64-73): unregister from MTD, then set the global
`dev_data` pointer to NULL for the whole process; always returns 0. -/
def spi_mram_remove (st : DriverState) (delResult : Int) : Int × DriverState :=
  (0, { dev_data := none, reg := spi_mram_mtd_unregister st.reg delResult })

/-- Read entry point as dispatched through the global state: the geometry is
fetched from the global `dev_data` pointer, never from the mtd/udevice handle
passed in (`dev` is unused, as in the C code); `none` models the null-pointer
dereference when no device has been probed. -/
def spi_mram_read_g (st : DriverState) (dev : UDevice) (offset len : Nat)
    (env : Nat → Int) : Option XferOutcome :=
  st.dev_data.map (fun dd => spi_mram_read dd offset len env)

/-- Write entry point dispatched through the global state, like
spi_mram_read_g. -/
def spi_mram_write_g (st : DriverState) (dev : UDevice) (offset len : Nat)
    (buf : List Nat) (env : Nat → Int) : Option XferOutcome :=
  st.dev_data.map (fun dd => spi_mram_write dd offset len buf env)

/-- Modelled from the spec: the generic MTD storage subsystem (mtdcore, not
under src/) initializes the caller-visible bytes_read to 0 before invoking
the driver read entry point, so the reported value is the driver-written
retlen when set and 0 otherwise. -/
def mtd_read_reported (dd : Mr25hxxData) (offset len : Nat) (env : Nat → Int) :
    Int × Nat × List SpiPhase :=
  let r := spi_mram_read dd offset len env
  (r.ret, r.retlen.getD 0, r.phases)

/-- The write-enable transaction: opcode 0x06, 8 bits, discrete BEGIN+END
chip-select framing. -/
def wren_phase : SpiPhase :=
  { bitlen := 8, dout := some [0x06], hasDin := false, flags := SPI_XFER_BEGIN ||| SPI_XFER_END }

/-- C1: the claim that Erase writes an entirely zero-filled buffer of
`length` bytes fails on the code: `memset(buffer, 0, sizeof(buffer))` zeroes
only sizeof(uchar*) = 8 bytes of the kmalloc allocation, so for length 16
the data phase of the emulated write carries the uninitialized tail (here
0xff bytes) and is not all-zero, contradicting the driver's own comment that
the mram is "written with zeros instead". -/
theorem C1_erase_buffer_not_zero_filled :
    (spi_mram_erase mr25h256_data 0 16 (fun _ => 0xff) (fun _ => 0)).phases.getLast? =
      some { bitlen := 128, dout := some (List.replicate 8 0 ++ List.replicate 8 0xff),
             hasDin := false, flags := SPI_XFER_END }
    ∧ List.replicate 8 0 ++ List.replicate 8 (0xff : Nat) ≠ List.replicate 16 0 := by
  decide

/-- C2 counterexample: with a transport where the opcode phase (phase 0)
fails with -1 but the final data phase succeeds, Read still sets
retlen = len, so retlen is NOT set only when every bus phase succeeds. -/
theorem C2_retlen_despite_failed_phase :
    (spi_mram_read mr25h256_data 0 16 (fun n => if n = 2 then 0 else -1)).retlen = some 16
    ∧ (fun n => if n = 2 then (0 : Int) else -1) 0 = -1 := by
  decide

/-- C2 amended: retlen is set to len iff the FINAL data phase of the
operation succeeds; the results of the earlier opcode, address and
write-enable phases are discarded and affect neither retlen nor the
returned error code. -/
theorem C2_retlen_iff_last_phase (dd : Mr25hxxData) (offset len : Nat) (buf : List Nat)
    (env : Nat → Int) (h : dd.addr_bytes = 2 ∨ dd.addr_bytes = 3) :
    ((spi_mram_read dd offset len env).retlen = if env 2 = 0 then some len else none)
    ∧ (spi_mram_read dd offset len env).ret = env 2
    ∧ ((spi_mram_write dd offset len buf env).retlen = if env 3 = 0 then some len else none)
    ∧ (spi_mram_write dd offset len buf env).ret = env 3 := by
  rcases h with h | h <;>
    simp [spi_mram_read, spi_mram_write, spi_mram_addr, h]

/-- Witness for C2_retlen_iff_last_phase at the mr25h256 geometry. -/
theorem C2_retlen_iff_last_phase_witness :
    ((spi_mram_read mr25h256_data 0 16 (fun _ => 0)).retlen =
      if (fun _ : Nat => (0 : Int)) 2 = 0 then some 16 else none)
    ∧ (spi_mram_read mr25h256_data 0 16 (fun _ => 0)).ret = (fun _ : Nat => (0 : Int)) 2
    ∧ ((spi_mram_write mr25h256_data 0 16 [] (fun _ => 0)).retlen =
      if (fun _ : Nat => (0 : Int)) 3 = 0 then some 16 else none)
    ∧ (spi_mram_write mr25h256_data 0 16 [] (fun _ => 0)).ret = (fun _ : Nat => (0 : Int)) 3 :=
  C2_retlen_iff_last_phase mr25h256_data 0 16 [] (fun _ => 0) (Or.inl rfl)

/-- C3: when the configured address width is neither 2 nor 3, Read and Write
return -1 and issue ZERO bus phases, and retlen is untouched — the bus and
device are never driven by the failed call. -/
theorem C3_unsupported_width_no_phases (dd : Mr25hxxData) (offset len : Nat)
    (buf : List Nat) (env : Nat → Int)
    (h2 : dd.addr_bytes ≠ 2) (h3 : dd.addr_bytes ≠ 3) :
    spi_mram_read dd offset len env = { ret := -1, phases := [], retlen := none }
    ∧ spi_mram_write dd offset len buf env = { ret := -1, phases := [], retlen := none } := by
  simp [spi_mram_read, spi_mram_write, spi_mram_addr, h2, h3]

/-- Witness for C3_unsupported_width_no_phases at address width 4. -/
theorem C3_unsupported_width_no_phases_witness :
    spi_mram_read { size := 0x8000, addr_bytes := 4 } 0 16 (fun _ => 0) =
      { ret := -1, phases := [], retlen := none }
    ∧ spi_mram_write { size := 0x8000, addr_bytes := 4 } 0 16 [] (fun _ => 0) =
      { ret := -1, phases := [], retlen := none } :=
  C3_unsupported_width_no_phases { size := 0x8000, addr_bytes := 4 } 0 16 [] (fun _ => 0)
    (by decide) (by decide)

/-- C4: the address phase of Read (phase 1) and Write (phase 2) carries the
big-endian encoding of the offset: 3 bytes and 24 bits at width 3, 2 bytes
and 16 bits at width 2; concretely offset 0x010203 encodes to
[0x01, 0x02, 0x03] and offset 0x1234 encodes to [0x12, 0x34]. -/
theorem C4_big_endian_address (sz offset len : Nat) (env : Nat → Int) :
    ((spi_mram_read { size := sz, addr_bytes := 3 } offset len env).phases[1]? =
      some { bitlen := 24, dout := some [(offset >>> 16) % 256, (offset >>> 8) % 256, offset % 256],
             hasDin := false, flags := 0 })
    ∧ ((spi_mram_read { size := sz, addr_bytes := 2 } offset len env).phases[1]? =
      some { bitlen := 16, dout := some [(offset >>> 8) % 256, offset % 256],
             hasDin := false, flags := 0 })
    ∧ ((spi_mram_write { size := sz, addr_bytes := 3 } offset len [] env).phases[2]? =
      some { bitlen := 24, dout := some [(offset >>> 16) % 256, (offset >>> 8) % 256, offset % 256],
             hasDin := false, flags := 0 })
    ∧ ((spi_mram_write { size := sz, addr_bytes := 2 } offset len [] env).phases[2]? =
      some { bitlen := 16, dout := some [(offset >>> 8) % 256, offset % 256],
             hasDin := false, flags := 0 })
    ∧ (spi_mram_read { size := sz, addr_bytes := 3 } 0x010203 len env).phases[1]? =
      some { bitlen := 24, dout := some [0x01, 0x02, 0x03], hasDin := false, flags := 0 }
    ∧ (spi_mram_read { size := sz, addr_bytes := 2 } 0x1234 len env).phases[1]? =
      some { bitlen := 16, dout := some [0x12, 0x34], hasDin := false, flags := 0 } := by
  refine ⟨?_, ?_, ?_, ?_, ?_, ?_⟩ <;>
    simp [spi_mram_read, spi_mram_write, spi_mram_addr]

/-- C5: a Read with an unsupported address width returns -1 immediately,
issues no bus phase, and the reported bytes_read is 0 (the driver never
writes retlen, so the subsystem-initialized 0 is what the caller sees). -/
theorem C5_unsupported_width_zero_reported (dd : Mr25hxxData) (offset len : Nat)
    (env : Nat → Int) (h2 : dd.addr_bytes ≠ 2) (h3 : dd.addr_bytes ≠ 3) :
    mtd_read_reported dd offset len env = (-1, 0, []) := by
  simp [mtd_read_reported, spi_mram_read, spi_mram_addr, h2, h3]

/-- Witness for C5_unsupported_width_zero_reported at address width 4. -/
theorem C5_unsupported_width_zero_reported_witness :
    mtd_read_reported { size := 0x8000, addr_bytes := 4 } 5 7 (fun _ => 0) = (-1, 0, []) :=
  C5_unsupported_width_zero_reported { size := 0x8000, addr_bytes := 4 } 5 7 (fun _ => 0)
    (by decide) (by decide)

/-- Combined framing value of a discrete BEGIN+END transaction. -/
theorem spi_xfer_once_flags : SPI_XFER_BEGIN ||| SPI_XFER_END = 3 := by decide

/-- C6: every Write with a supported address width issues the write-enable
transaction (opcode 0x06, 8 bits, discrete BEGIN+END framing) as its FIRST
bus phase, exactly once per call — and two consecutive calls issue it
exactly twice, once each. -/
theorem C6_write_enable_once_first (dd : Mr25hxxData) (offset len : Nat)
    (buf : List Nat) (env env2 : Nat → Int)
    (h : dd.addr_bytes = 2 ∨ dd.addr_bytes = 3) :
    (spi_mram_write dd offset len buf env).phases.head? = some wren_phase
    ∧ (spi_mram_write dd offset len buf env).phases.count wren_phase = 1
    ∧ ((spi_mram_write dd offset len buf env).phases
        ++ (spi_mram_write dd offset len buf env2).phases).count wren_phase = 2 := by
  rcases h with h | h <;>
    simp [spi_mram_write, spi_mram_addr, h, wren_phase, spi_xfer_once_flags,
      List.count_cons, List.count_append, SPI_XFER_BEGIN, SPI_XFER_END]

/-- Witness for C6_write_enable_once_first at the mr25h256 geometry. -/
theorem C6_write_enable_once_first_witness :
    (spi_mram_write mr25h256_data 0 16 [] (fun _ => 0)).phases.head? = some wren_phase
    ∧ (spi_mram_write mr25h256_data 0 16 [] (fun _ => 0)).phases.count wren_phase = 1
    ∧ ((spi_mram_write mr25h256_data 0 16 [] (fun _ => 0)).phases
        ++ (spi_mram_write mr25h256_data 0 16 [] (fun _ => 1)).phases).count wren_phase = 2 :=
  C6_write_enable_once_first mr25h256_data 0 16 [] (fun _ => 0) (fun _ => 1) (Or.inl rfl)

/-- C7: with geometry {size 0x8000, width 2}, Read(offset 0, length 16)
issues exactly the three phases opcode 0x03 (8 bits, BEGIN), address
[0x00, 0x00] (16 bits, no framing change), 128-bit data-in (END), and on
transport success returns 0 with bytes_read = 16. -/
theorem C7_read_scenario (env : Nat → Int)
    (h0 : env 0 = 0) (h1 : env 1 = 0) (h2 : env 2 = 0) :
    (spi_mram_read { size := 0x8000, addr_bytes := 2 } 0 16 env).phases =
      [{ bitlen := 8, dout := some [0x03], hasDin := false, flags := SPI_XFER_BEGIN },
       { bitlen := 16, dout := some [0x00, 0x00], hasDin := false, flags := 0 },
       { bitlen := 128, dout := none, hasDin := true, flags := SPI_XFER_END }]
    ∧ (spi_mram_read { size := 0x8000, addr_bytes := 2 } 0 16 env).retlen = some 16
    ∧ (spi_mram_read { size := 0x8000, addr_bytes := 2 } 0 16 env).ret = 0 := by
  simp [spi_mram_read, spi_mram_addr, h2]

/-- Witness for C7_read_scenario with an all-success transport. -/
theorem C7_read_scenario_witness :
    (spi_mram_read { size := 0x8000, addr_bytes := 2 } 0 16 (fun _ => 0)).phases =
      [{ bitlen := 8, dout := some [0x03], hasDin := false, flags := SPI_XFER_BEGIN },
       { bitlen := 16, dout := some [0x00, 0x00], hasDin := false, flags := 0 },
       { bitlen := 128, dout := none, hasDin := true, flags := SPI_XFER_END }]
    ∧ (spi_mram_read { size := 0x8000, addr_bytes := 2 } 0 16 (fun _ => 0)).retlen = some 16
    ∧ (spi_mram_read { size := 0x8000, addr_bytes := 2 } 0 16 (fun _ => 0)).ret = 0 :=
  C7_read_scenario (fun _ => 0) rfl rfl rfl

/-- C8: re-registration while already registered (with its one live entry)
first deletes the stale entry; the entry count never exceeds 1 at any point
of the trace; whenever `add_mtd_device` is reached, the stale delete
succeeded and the state at that moment has the flag cleared and zero
entries; the final flag is true iff the new `add_mtd_device` succeeded; and
if the install step is never reached, the only registry call made was the
(failed) delete. -/
theorem C8_reregistration_removes_stale (st : RegState) (dd : Mr25hxxData)
    (mtd : MtdInfo) (delResult addResult : Int)
    (hreg : st.registered = true) (hent : st.entries = 1) :
    ((spi_mram_mtd_register st dd mtd delResult addResult).trace.head? =
      some (RegEvent.del, if delResult = 0 then 0 else 1))
    ∧ (∀ p ∈ (spi_mram_mtd_register st dd mtd delResult addResult).trace, p.2 ≤ 1)
    ∧ ((spi_mram_mtd_register st dd mtd delResult addResult).preAdd ≠ none →
        delResult = 0
        ∧ (spi_mram_mtd_register st dd mtd delResult addResult).preAdd =
          some { registered := false, entries := 0 })
    ∧ ((spi_mram_mtd_register st dd mtd delResult addResult).preAdd ≠ none →
        ((spi_mram_mtd_register st dd mtd delResult addResult).state.registered = true
          ↔ addResult = 0))
    ∧ ((spi_mram_mtd_register st dd mtd delResult addResult).preAdd = none →
        (spi_mram_mtd_register st dd mtd delResult addResult).trace = [(RegEvent.del, 1)]) := by
  obtain ⟨r, e⟩ := st
  simp only at hreg hent
  subst hreg
  subst hent
  by_cases hd : delResult = 0 <;> by_cases ha : addResult = 0 <;>
    simp [spi_mram_mtd_register, spi_mram_install, hd, ha]

/-- Witness for C8_reregistration_removes_stale with both registry calls
succeeding. -/
theorem C8_reregistration_removes_stale_witness :
    ((spi_mram_mtd_register { registered := true, entries := 1 } mr25h40_data
        { name := "", mtype := 0, flags := 0, size := 0, writesize := 0,
          writebufsize := 0, numeraseregions := 0, erasesize := 0 } 0 0).trace.head? =
      some (RegEvent.del, if (0 : Int) = 0 then 0 else 1))
    ∧ (∀ p ∈ (spi_mram_mtd_register { registered := true, entries := 1 } mr25h40_data
        { name := "", mtype := 0, flags := 0, size := 0, writesize := 0,
          writebufsize := 0, numeraseregions := 0, erasesize := 0 } 0 0).trace, p.2 ≤ 1)
    ∧ ((spi_mram_mtd_register { registered := true, entries := 1 } mr25h40_data
        { name := "", mtype := 0, flags := 0, size := 0, writesize := 0,
          writebufsize := 0, numeraseregions := 0, erasesize := 0 } 0 0).preAdd ≠ none →
        (0 : Int) = 0
        ∧ (spi_mram_mtd_register { registered := true, entries := 1 } mr25h40_data
            { name := "", mtype := 0, flags := 0, size := 0, writesize := 0,
              writebufsize := 0, numeraseregions := 0, erasesize := 0 } 0 0).preAdd =
          some { registered := false, entries := 0 })
    ∧ ((spi_mram_mtd_register { registered := true, entries := 1 } mr25h40_data
        { name := "", mtype := 0, flags := 0, size := 0, writesize := 0,
          writebufsize := 0, numeraseregions := 0, erasesize := 0 } 0 0).preAdd ≠ none →
        ((spi_mram_mtd_register { registered := true, entries := 1 } mr25h40_data
            { name := "", mtype := 0, flags := 0, size := 0, writesize := 0,
              writebufsize := 0, numeraseregions := 0, erasesize := 0 } 0 0).state.registered = true
          ↔ (0 : Int) = 0))
    ∧ ((spi_mram_mtd_register { registered := true, entries := 1 } mr25h40_data
        { name := "", mtype := 0, flags := 0, size := 0, writesize := 0,
          writebufsize := 0, numeraseregions := 0, erasesize := 0 } 0 0).preAdd = none →
        (spi_mram_mtd_register { registered := true, entries := 1 } mr25h40_data
          { name := "", mtype := 0, flags := 0, size := 0, writesize := 0,
            writebufsize := 0, numeraseregions := 0, erasesize := 0 } 0 0).trace =
          [(RegEvent.del, 1)]) :=
  C8_reregistration_removes_stale { registered := true, entries := 1 } mr25h40_data
    { name := "", mtype := 0, flags := 0, size := 0, writesize := 0,
      writebufsize := 0, numeraseregions := 0, erasesize := 0 } 0 0 rfl rfl

/-- C9: the match table maps each compatible string to exactly the claimed
geometry, and a registration (from the unregistered state) populates the
registry entry with that device size, write granularity 1, erase
granularity 1, the RAM-like capability flags, the RAM device type and the
fixed name "mram0". -/
theorem C9_variant_table_and_entry (st : RegState) (dd : Mr25hxxData)
    (mtd : MtdInfo) (delResult addResult : Int) (h : st.registered = false) :
    spi_mram_ids.lookup "mr25h40" = some { size := 0x80000, addr_bytes := 3 }
    ∧ spi_mram_ids.lookup "mr25h10" = some { size := 0x20000, addr_bytes := 3 }
    ∧ spi_mram_ids.lookup "mr25h256" = some { size := 0x8000, addr_bytes := 2 }
    ∧ spi_mram_ids.lookup "mr25h128" = some { size := 0x4000, addr_bytes := 2 }
    ∧ (spi_mram_mtd_register st dd mtd delResult addResult).mtd =
      { name := "mram0", mtype := MTD_RAM, flags := MTD_CAP_RAM, size := dd.size,
        writesize := 1, writebufsize := 265, numeraseregions := 0, erasesize := 1 } := by
  refine ⟨rfl, rfl, rfl, rfl, ?_⟩
  simp [spi_mram_mtd_register, spi_mram_install, h]

/-- Witness for C9_variant_table_and_entry from the unregistered state. -/
theorem C9_variant_table_and_entry_witness :
    spi_mram_ids.lookup "mr25h40" = some { size := 0x80000, addr_bytes := 3 }
    ∧ spi_mram_ids.lookup "mr25h10" = some { size := 0x20000, addr_bytes := 3 }
    ∧ spi_mram_ids.lookup "mr25h256" = some { size := 0x8000, addr_bytes := 2 }
    ∧ spi_mram_ids.lookup "mr25h128" = some { size := 0x4000, addr_bytes := 2 }
    ∧ (spi_mram_mtd_register { registered := false, entries := 0 } mr25h40_data
        { name := "", mtype := 0, flags := 0, size := 0, writesize := 0,
          writebufsize := 0, numeraseregions := 0, erasesize := 0 } 0 0).mtd =
      { name := "mram0", mtype := MTD_RAM, flags := MTD_CAP_RAM, size := mr25h40_data.size,
        writesize := 1, writebufsize := 265, numeraseregions := 0, erasesize := 1 } :=
  C9_variant_table_and_entry { registered := false, entries := 0 } mr25h40_data
    { name := "", mtype := 0, flags := 0, size := 0, writesize := 0,
      writebufsize := 0, numeraseregions := 0, erasesize := 0 } 0 0 rfl

/-- C10: Read and Write fetch the geometry from the single process-wide
`dev_data` pointer and ignore which device handle they are invoked on;
probing a second device overwrites that pointer, so a subsequent Read
through the first device's handle uses the second device's geometry; and
Remove sets the pointer to null for the whole process. -/
theorem C10_global_dev_data (st : DriverState) (d1 d2 : UDevice) (mtdA mtdB : MtdInfo)
    (offset len : Nat) (buf : List Nat) (env : Nat → Int)
    (del1 add1 del2 add2 delr : Int) :
    spi_mram_read_g st d1 offset len env = spi_mram_read_g st d2 offset len env
    ∧ spi_mram_write_g st d1 offset len buf env = spi_mram_write_g st d2 offset len buf env
    ∧ spi_mram_read_g
        (spi_mram_probe (spi_mram_probe st d1 mtdA 0 del1 add1).2 d2 mtdB 0 del2 add2).2
        d1 offset len env = some (spi_mram_read d2.driver_data offset len env)
    ∧ (spi_mram_remove st delr).2.dev_data = none := by
  refine ⟨rfl, rfl, ?_, rfl⟩
  simp [spi_mram_probe, spi_mram_read_g]
